import Mathlib

/-!
Verification development for the vector-indexed document store of the
`gp_assignment` repository: a shallow embedding in Lean 4 of the ingestion
write path (`app/database/add_pdf.py`), the two-stage similarity retrieval
(`app/database/get_similarity.py`), the schema/index lifecycle
(`app/database/create_table.py`), the ingestion pipeline (`app/task.py`,
`app/database/task_helpers.py`, `app/extract_pdf.py`), the cache-key
derivation (`app/redis_cache.py`) and the orchestration routes
(`app/routes.py`).

External collaborators (the pgvector `<=>` cosine-distance operator, the
embedding model, the text splitter, the SHA-256 digest, the generative
model, the PDF text extractor) are opaque in the source and are passed as
function parameters here.  Python dictionaries of chunk data translate to
the `DbRow` structure; the database table is a `List DbRow`; a raised
exception translates to `Except`/`Option` error values; per-statement
commit/rollback behaviour is made explicit where the source performs it.
-/

/-- One persisted chunk row of the `embeddings` table: columns `rowid`
(content hash of the source document), `text`, `embedding`, `section`
(`sect` here, since `section` is a Lean keyword; 0 = whole document,
positive = ordinal sub-chunk).  The surrogate `id SERIAL` column plays no
role in any claim and is omitted. -/
structure DbRow where
  rowid : String
  text : String
  embedding : List ℚ
  sect : Nat
deriving DecidableEq, Repr

/-- Embedding of `add_pdf_to_db` (`app/database/add_pdf.py`, lines 14-41).
The source iterates over the chunk dictionaries and, for each one
separately, executes one INSERT and immediately calls `conn.commit()`;
on an exception it calls `conn.rollback()` (undoing only the single
uncommitted INSERT), logs, and continues with the next row.  `ok` says
whether the INSERT of a given row succeeds; `db` is the committed table
state. -/
def add_pdf_to_db (ok : DbRow → Bool) (db : List DbRow) : List DbRow → List DbRow
  | [] => db
  | c :: rest => add_pdf_to_db ok (if ok c then db ++ [c] else db) rest

/-- Embedding of `get_entry_from_db` (`app/database/task_helpers.py`,
lines 12-38).  The EXISTS query runs inside a `try`; on any exception the
handler sets `result = False` and the `finally` block returns it, so a
query error is reported as "not present".  `qres` is the outcome of the
EXISTS query (`.error` = the query raised). -/
def get_entry_from_db (qres : Except Unit Bool) : Bool :=
  match qres with
  | .ok b => b
  | .error _ => false

/-- Result of the EXISTS subquery `SELECT 1 FROM embeddings WHERE rowid = %s`
on table state `db`. -/
def existsQuery (db : List DbRow) (id_ : String) : Bool :=
  db.any (fun r => r.rowid == id_)

/-- Chunk-record construction used by `_get_data_for_db` (`app/task.py`,
lines 107-114): the i-th (text, embedding) pair becomes a row with
`section = i`, all sharing the document id. -/
def mkRows (id_ : String) : Nat → List (String × List ℚ) → List DbRow
  | _, [] => []
  | i, (t, e) :: rest => ⟨id_, t, e, i⟩ :: mkRows id_ (i + 1) rest

/-- Embedding of `_get_data_for_db` (`app/task.py`, lines 89-116).
`splitF` models the `RecursiveCharacterTextSplitter` collaborator and
`emb` the batch embedding call `generate_embedding`.  The source builds
`text_to_embed = [content] + chunks`, embeds the whole list in one call
and then enumerates the returned embeddings, indexing `text_to_embed[i]`;
if the embedder returned more vectors than texts that indexing raises
(`none` here).  `generate_embedding` returns either one vector per input
or the empty list, so in practice the result is the full record list or
`some []`. -/
def _get_data_for_db (splitF : String → List String)
    (emb : List String → List (List ℚ)) (id_ content : String) :
    Option (List DbRow) :=
  let texts := content :: splitF content
  let embs := emb texts
  if embs.length ≤ texts.length then some (mkRows id_ 0 (texts.zip embs))
  else none

/-- Embedding of the celery task `emb_and_store` (`app/task.py`,
lines 24-56) acting on a table state `db`.  `hashF`/`textF` model
`extract_data_from_pdf` (`app/extract_pdf.py`): the document id is the
SHA-256 hex digest of the raw bytes and the text is the concatenated page
text, both deterministic functions of the bytes.  `qerr` injects a failure
of the duplicate-check query (`get_entry_from_db` swallows it and reports
`False`).  A `none` from `_get_data_for_db` models the raised exception
(nothing written); the `is None` guard of the source never fires on the empty
list, so an empty embedding result reaches `add_pdf_to_db` with an empty
batch. -/
def emb_and_store (hashF textF : List Nat → String)
    (splitF : String → List String) (emb : List String → List (List ℚ))
    (ok : DbRow → Bool) (qerr : Bool) (db : List DbRow) (pdf : List Nat) :
    List DbRow :=
  let id_ := hashF pdf
  if get_entry_from_db (if qerr then .error () else .ok (existsQuery db id_))
  then db
  else
    match _get_data_for_db splitF emb id_ (textF pdf) with
    | none => db
    | some data => add_pdf_to_db ok db data

/-- Embedding of `delete_pdf_id` (`app/database/delete_pdf.py`,
lines 8-41): if no row with the id exists the function raises (state
unchanged); otherwise one DELETE removes every row with that id and is
committed. -/
def delete_pdf_id (db : List DbRow) (id_ : String) : List DbRow :=
  if (db.filter (fun r => r.rowid == id_)).isEmpty then db
  else db.filter (fun r => !(r.rowid == id_))

/-- One store-level operation: ingesting raw bytes or deleting a document
by id. -/
inductive StoreOp where
  | ingest (pdf : List Nat)
  | delete (id_ : String)

/-- Runs a sequence of ingest/delete operations against a table state
(duplicate checks performed normally, `qerr = false`). -/
def runOps (hashF textF : List Nat → String)
    (splitF : String → List String) (emb : List String → List (List ℚ))
    (ok : DbRow → Bool) : List StoreOp → List DbRow → List DbRow
  | [], db => db
  | .ingest pdf :: rest, db =>
      runOps hashF textF splitF emb ok rest
        (emb_and_store hashF textF splitF emb ok false db pdf)
  | .delete i :: rest, db =>
      runOps hashF textF splitF emb ok rest (delete_pdf_id db i)

/-- Rows of a table state carrying a given document id, in table order. -/
def rowsFor (db : List DbRow) (id_ : String) : List DbRow :=
  db.filter (fun r => r.rowid == id_)

/-- Substring test on character lists: `containsSub n h` holds when `n`
occurs contiguously in `h`.  This is the semantics of the SQL pattern
built by the high-level similarity query (`LIKE` with the term wrapped in percent wildcards). -/
def startsWithSub : List Char → List Char → Bool
  | [], _ => true
  | _ :: _, [] => false
  | a :: as, b :: bs => a == b && startsWithSub as bs

def containsSub (n : List Char) : List Char → Bool
  | [] => n.isEmpty
  | b :: bs => startsWithSub n (b :: bs) || containsSub n bs

/-- OR-combination of the per-term wildcard `LIKE` clauses on `text` built in
`_get_similarity_query_high_level` (`app/database/get_similarity.py`,
lines 92-100). -/
def likeAny (terms : List String) (s : String) : Bool :=
  terms.any (fun t => containsSub t.data s.data)

/-- Filters dictionary of a retrieval request.  Only the text filter key
(`JSON_TEXT_FILTER`) is consulted by the query builder; `none` covers an
absent key or a value in `["", None]` (no clause added), `some ts` a list
value. -/
structure Filters where
  text_filter : Option (List String)
deriving DecidableEq, Repr

/-- Cosine similarity score `1 - (embedding <=> query)` computed by both
similarity queries; `dist` is the opaque pgvector cosine-distance
operator. -/
def scoreOf (dist : List ℚ → List ℚ → ℚ) (q e : List ℚ) : ℚ :=
  1 - dist q e

/-- WHERE clause of stage 1 (`_get_similarity_query_high_level`):
`section = 0`, score at least the similarity limit, and the optional
OR-combined text filter.  An empty term list is excluded here because it
produces the malformed clause `AND ()` (handled in `queryHigh`). -/
def passHigh (dist : List ℚ → List ℚ → ℚ) (q : List ℚ) (limit : ℚ)
    (f : Filters) (r : DbRow) : Bool :=
  r.sect == 0 && decide (limit ≤ scoreOf dist q r.embedding) &&
    (match f.text_filter with
     | some (t :: ts) => likeAny (t :: ts) r.text
     | _ => true)

/-- The `ORDER BY embedding <=> %s` sort, ascending by cosine distance to
the query embedding. -/
def sortByDistance (dist : List ℚ → List ℚ → ℚ) (q : List ℚ)
    (rows : List DbRow) : List DbRow :=
  rows.insertionSort (fun a b => dist q a.embedding ≤ dist q b.embedding)

/-- Embedding of stage 1 of `get_similarity`
(`app/database/get_similarity.py`, lines 71-121 executed at lines 33-41):
select the `rowid`s of the section-0 rows passing the score and filter
conditions, ordered by ascending distance, capped at `n` (`LIMIT`).
A present text-filter key with an empty list builds the SQL fragment
`AND ()`, which the database rejects; the raised error is modelled as
`.error ()`. -/
def queryHigh (dist : List ℚ → List ℚ → ℚ) (q : List ℚ) (limit : ℚ)
    (n : Nat) (f : Filters) (table : List DbRow) :
    Except Unit (List String) :=
  match f.text_filter with
  | some [] => .error ()
  | _ =>
      .ok (((sortByDistance dist q
          (table.filter (passHigh dist q limit f))).take n).map
        (fun r => r.rowid))

/-- WHERE clause of stage 2 (`_get_similarity_query_low_level`,
lines 132-140): `section > 0`, `rowid = ANY(ids)`, score at least the
limit. -/
def passLow (dist : List ℚ → List ℚ → ℚ) (q : List ℚ) (limit : ℚ)
    (ids : List String) (r : DbRow) : Bool :=
  decide (0 < r.sect) && decide (r.rowid ∈ ids) &&
    decide (limit ≤ scoreOf dist q r.embedding)

/-- Embedding of stage 2 of `get_similarity`: the qualifying chunk rows,
ordered by ascending distance, capped at `n`.  (The SQL projects each row
to `(rowid, section, text, similarity)`; the rows are kept whole here,
which loses nothing.) -/
def queryLow (dist : List ℚ → List ℚ → ℚ) (q : List ℚ) (ids : List String)
    (limit : ℚ) (n : Nat) (table : List DbRow) : List DbRow :=
  (sortByDistance dist q (table.filter (passLow dist q limit ids))).take n

/-- Embedding of `get_similarity` (`app/database/get_similarity.py`,
lines 12-68): run stage 1, feed its id set to stage 2, return the stage-2
rows; any query error is rolled back and re-raised. -/
def get_similarity (dist : List ℚ → List ℚ → ℚ) (q : List ℚ) (limit : ℚ)
    (n : Nat) (f : Filters) (table : List DbRow) :
    Except Unit (List DbRow) :=
  match queryHigh dist q limit n f table with
  | .error e => .error e
  | .ok ids => .ok (queryLow dist q ids limit n table)

/-- Expected number of stored vectors, `EXPECTED_SIZE_OF_DB`
(`app/constants.py`, line 26). -/
def EXPECTED_SIZE_OF_DB : Nat := 5 * 10 ^ 6

/-- Vector dimensionality used by `_get_vector_index_params`
(`app/database/create_table.py`, line 562) and implied by
`_get_vector_type` (line 534, `"vector(1024)"`). -/
def VECTOR_DIMENSION : Nat := 1024

/-- Intermediate `dimensionality = log(n) * (1 + vector_dimension / 500)`
of `_get_vector_index_params` (`app/database/create_table.py`, line 564),
idealising Python floats as reals. -/
noncomputable def index_dimensionality (n d : Nat) : ℝ :=
  Real.log n * (1 + (d : ℝ) / 500)

/-- Intermediate `temp_m = 2 * (dimensionality - 1)` (line 566). -/
noncomputable def index_temp_m (n d : Nat) : ℝ :=
  2 * (index_dimensionality n d - 1)

/-- The HNSW graph degree `m`: `temp_m` capped at 64, the pgvector maximum
(lines 567-570). -/
noncomputable def index_m (n d : Nat) : ℝ :=
  if index_temp_m n d > 64 then 64 else index_temp_m n d

/-- The HNSW build parameter
`ef_construction = int(ceil(((2 * m) + d / 10) / 100)) * 100`
(lines 572-573). -/
noncomputable def index_ef_construction (n d : Nat) : ℤ :=
  ⌈((2 * index_m n d) + (d : ℝ) / 10) / 100⌉ * 100

/-- Embedding of `_get_vector_index_params`
(`app/database/create_table.py`, lines 560-575), generalised over the two
constants it reads (`EXPECTED_SIZE_OF_DB` and the hard-coded
`vector_dimension = 1024`). -/
noncomputable def _get_vector_index_params (n d : Nat) : ℝ × ℤ :=
  (index_m n d, index_ef_construction n d)

/-- Positional parameter list of `def cache_key_answer_question(input)`
(`app/redis_cache.py`, line 80): exactly one parameter, no defaults. -/
def cache_key_answer_question_param_list : List String := ["input"]

/-- The canonical string built by `cache_key_answer_question` before
hashing: the f-string `f"""\n    {input}\n    """`, which interpolates the
question only. -/
def cache_str_of (input : String) : String :=
  "\n    " ++ input ++ "\n    "

/-- Embedding of `cache_key_answer_question` + `encoded_str`
(`app/redis_cache.py`, lines 80-94); `sha256hex` is the opaque SHA-256
hex-digest collaborator from `hashlib`. -/
def cache_key_answer_question (sha256hex : String → String)
    (input : String) : String :=
  sha256hex (cache_str_of input)

/-- An argument of the call `cache_key_answer_question(question_text,
filters)` in `answer_question` (`app/routes.py`, line 192). -/
inductive PyArg where
  | strArg (s : String)
  | filtersArg (f : Filters)

/-- Embedding of the call site `cache_key_answer_question(question_text,
filters)` (`app/routes.py`, line 192) under Python positional-argument
binding: the callee declares exactly the parameters in
`cache_key_answer_question_param_list`, so a call whose argument count
differs raises `TypeError` (`.error ()`). -/
def routes_cache_key_call (sha256hex : String → String)
    (question : String) (f : Filters) : Except Unit String :=
  if [PyArg.strArg question, PyArg.filtersArg f].length
      = cache_key_answer_question_param_list.length
  then .ok (cache_key_answer_question sha256hex question)
  else .error ()

/-- Embedding of `invoke_llm` (`app/models.py`, lines 11-31): with no
facts it returns the fixed fallback sentence; otherwise the opaque
generative model `llm` produces the answer. -/
def invoke_llm (llm : String → List String → String) (question : String)
    (content : List String) : String :=
  if content.isEmpty then
    "There are not facts available that are related to " ++ question
  else llm question content

/-- Embedding of the task-layer `answer_question` (`app/task.py`,
lines 59-86): embed the question (`embQ` models `generate_embedding` on
the singleton question list), run `get_similarity`, pass the text column
(`fact[2]`) of each source row to `invoke_llm`, and raise if the answer is
empty.  The function returns the answer string alone. -/
def task_answer_question (dist : List ℚ → List ℚ → ℚ)
    (embQ : String → List ℚ) (llm : String → List String → String)
    (q : String) (limit : ℚ) (n : Nat) (f : Filters)
    (table : List DbRow) : Except Unit String :=
  match get_similarity dist (embQ q) limit n f table with
  | .error _ => .error ()
  | .ok rows =>
      let answer := invoke_llm llm q (rows.map (fun r => r.text))
      if answer = "" then .error () else .ok answer

/-- The tuple assignment `answer, db_query_time, invoke_time = ...`
(`app/routes.py`, lines 235-240) applied to the string returned by the
task-layer `answer_question`: Python iterates the string and unpacks it
into three targets, raising `ValueError` unless it has exactly three
characters. -/
def unpack3 (s : String) : Except Unit (Char × Char × Char) :=
  match s.data with
  | [a, b, c] => .ok (a, b, c)
  | _ => .error ()

/-- Body of the successful JSON response of `/answer_question`: the
`message` and `data` fields (`app/routes.py`, lines 245-253). -/
structure RouteAnswer where
  message : String
  data : String
deriving DecidableEq, Repr

/-- Embedding of the degraded-mode branch of the `/answer_question` route
(`app/routes.py`, lines 231-253, the `except ConnectionError` handler):
the cache lookup and store are skipped and the task-layer
`answer_question` is called directly, but its single string result is
unpacked into three variables; the resulting `ValueError` propagates out
of the handler (`.error ()`, an HTTP 500). -/
def routes_answer_question_degraded (dist : List ℚ → List ℚ → ℚ)
    (embQ : String → List ℚ) (llm : String → List String → String)
    (q : String) (limit : ℚ) (n : Nat) (f : Filters)
    (table : List DbRow) : Except Unit RouteAnswer :=
  match task_answer_question dist embQ llm q limit n f table with
  | .error _ => .error ()
  | .ok ans =>
      match unpack3 ans with
      | .error _ => .error ()
      | .ok (a, _, _) =>
          .ok ⟨"Successfully generated answer to " ++ q, String.mk [a]⟩

/-- Logical state of the `embeddings` table for the schema-lifecycle
model: stored vector dimensionality (`atttypmod` of the `embedding`
column), the persisted rows, the column-name set, and whether the id and
vector indexes exist. -/
structure TableState where
  dim : Nat
  rows : List DbRow
  columns : List String
  hasIdIndex : Bool
  hasVectorIndex : Bool
deriving DecidableEq, Repr

/-- Committed database state seen by `create_table`: whether the pgvector
extension is enabled and the `embeddings` table (if it exists). -/
structure PgState where
  pgvector : Bool
  table : Option TableState
deriving DecidableEq, Repr

/-- Failure injection for the steps of `create_table`: each flag makes the
corresponding SQL statement raise. -/
structure FailSpec where
  failPgvector : Bool
  failCreateTable : Bool
  failCreateIndex : Bool
deriving DecidableEq, Repr

/-- The no-failure injection. -/
def noFail : FailSpec := ⟨false, false, false⟩

/-- Expected column set of `_get_expected_columns_schema`
(`app/database/create_table.py`, lines 236-246). -/
def expectedColumns : List String :=
  ["id", "rowid", "text", "embedding", "section"]

/-- The table produced by `_make_table_helper` from scratch
(`app/database/create_table.py`, lines 147-193): full expected column set
at the model dimensionality, no rows, id index and vector index created. -/
def freshTable (d : Nat) : TableState :=
  ⟨d, [], expectedColumns, true, true⟩

/-- Embedding of `_make_table_helper` + `_create_table_index`
(`app/database/create_table.py`, lines 147-193): CREATE TABLE followed by
the two CREATE INDEX statements; a failure of any statement raises
(`none`), and none of its work is committed by the helper itself. -/
def _make_table_helper (fails : FailSpec) (d : Nat) : Option TableState :=
  if fails.failCreateTable then none
  else if fails.failCreateIndex then none
  else some (freshTable d)

/-- Embedding of `_validate_table_schema` (`app/database/create_table.py`,
lines 197-233): add the missing expected columns and drop the extra ones,
leaving exactly the expected column set. -/
def _validate_table_schema (t : TableState) : TableState :=
  { t with columns := expectedColumns }

/-- Embedding of `_validate_vector_index` (`app/database/create_table.py`,
lines 432-451): if the HNSW index is missing or its (m, ef_construction)
parameters differ from the computed target it is dropped and recreated on
a separate connection with its own commit; afterwards the vector index
exists with the target parameters. -/
def _validate_vector_index (t : TableState) : TableState :=
  { t with hasVectorIndex := true }

/-- Embedding of `create_table` (`app/database/create_table.py`,
lines 22-91) with explicit transaction boundaries.  The statements on the
own connection of the function stay pending until `conn.commit()`; the one
exception is `_drop_embedding_table` (lines 306-319), which executes
`DROP TABLE` and immediately calls `conn.commit()` itself, committing the
drop (and any pending work such as CREATE EXTENSION) before the table is
recreated.  On a raised step the `except` handler rolls back the pending
work of this connection and re-raises (`.error ()`); whatever was already
committed stays.  The branches: missing table → build from scratch;
dimensionality mismatch (`_validate_vector_dimensions`, lines 258-284,
comparing the stored dimensionality with `expectedDim`, the value implied
by the active embedding model via `_get_vector_type`) → drop + rebuild;
match → column diffing and index validation. -/
def create_table (fails : FailSpec) (expectedDim : Nat) (st : PgState) :
    Except Unit Unit × PgState :=
  if fails.failPgvector then (.error (), st)
  else
    match st.table with
    | none =>
        match _make_table_helper fails expectedDim with
        | none => (.error (), st)
        | some t => (.ok (), ⟨true, some t⟩)
    | some t =>
        if t.dim ≠ expectedDim then
          match _make_table_helper fails expectedDim with
          | none => (.error (), ⟨true, none⟩)
          | some t2 => (.ok (), ⟨true, some t2⟩)
        else
          (.ok (),
           ⟨true, some (_validate_vector_index (_validate_table_schema t))⟩)

/-- The full chunk-record set produced by `_get_data_for_db` for a document
with id `id_` and raw text `t` (when the embedder answers the batch call):
section 0 carries the whole text, sections 1.. carry the chunks of the splitter
in order. -/
def docRowsSpec (splitF : String → List String)
    (emb : List String → List (List ℚ)) (id_ t : String) : List DbRow :=
  mkRows id_ 0 ((t :: splitF t).zip (emb (t :: splitF t)))

/-- Store-level invariant maintained by the ingest/delete operations: every
document id either has no rows or carries exactly the record set
`_get_data_for_db` produced from one raw text (with a full batch of
embeddings). -/
def storeInv (splitF : String → List String)
    (emb : List String → List (List ℚ)) (db : List DbRow) : Prop :=
  ∀ id_ : String, rowsFor db id_ = [] ∨
    ∃ t : String, (emb (t :: splitF t)).length = (t :: splitF t).length ∧
      rowsFor db id_ = docRowsSpec splitF emb id_ t

/-- Concrete chunk rows for the `add_pdf_to_db` batch scenario: the
section-0 row and one sub-chunk row of the same document. -/
def c1Row0 : DbRow := ⟨"doc", "full text", [1], 0⟩

def c1Row1 : DbRow := ⟨"doc", "chunk one", [1], 1⟩

/-- Insert outcome where the section-0 INSERT succeeds and the sub-chunk
INSERT raises. -/
def c1SecondFails : DbRow → Bool := fun r => r.sect == 0

/-- Concrete distance function for the retrieval scenario. -/
def c2Dist : List ℚ → List ℚ → ℚ := fun _ e => e.headD 0

def c2Row0 : DbRow := ⟨"doc", "alpha", [0], 0⟩

def c2Row1 : DbRow := ⟨"doc", "alpha body", [0], 1⟩

def c2Table : List DbRow := [c2Row0, c2Row1]

/-- Concrete collaborators for the ingestion scenarios: constant content
hash, constant extracted text, one-chunk splitter, one embedding vector
per input text, every INSERT succeeds. -/
def c4hash : List Nat → String := fun _ => "h"

def c4text : List Nat → String := fun _ => "t"

def c4split : String → List String := fun _ => ["c"]

def c4emb : List String → List (List ℚ) := fun ts => ts.map (fun _ => [0])

def c4ok : DbRow → Bool := fun _ => true

/-- Concrete pre-existing table whose stored dimensionality (512) differs
from the model-implied 1024. -/
def c6Table : TableState := ⟨512, [⟨"doc", "t", [0], 0⟩], expectedColumns, true, true⟩

def c6St : PgState := ⟨true, some c6Table⟩

/-- Concrete pre-existing mismatched table for the migration-failure
scenario. -/
def c7St : PgState := ⟨true, some ⟨512, [⟨"doc", "t", [0], 0⟩], expectedColumns, true, true⟩⟩

/-- Failure injection where the CREATE TABLE of the rebuild raises. -/
def c7Fails : FailSpec := ⟨false, true, false⟩

/-- Concrete collaborators for the degraded answer scenario. -/
def c9dist : List ℚ → List ℚ → ℚ := fun _ _ => 0

def c9embQ : String → List ℚ := fun _ => []

def c9llm : String → List String → String := fun _ _ => "I do not know"

/-! ## Helper lemmas -/

/-- Because `add_pdf_to_db` commits every row in its own transaction, the
resulting table is the old table extended with exactly the rows whose
individual INSERT succeeded. -/
theorem add_pdf_to_db_append_filter (ok : DbRow → Bool) (data : List DbRow) :
    ∀ db : List DbRow, add_pdf_to_db ok db data = db ++ data.filter ok := by
  induction data with
  | nil => intro db; simp [add_pdf_to_db]
  | cons c rest ih =>
      intro db
      by_cases h : ok c
      · simp [add_pdf_to_db, h, ih, List.filter_cons]
      · simp [add_pdf_to_db, h, ih, List.filter_cons]

theorem add_pdf_to_db_all_ok (ok : DbRow → Bool) (hok : ∀ c, ok c = true)
    (db data : List DbRow) : add_pdf_to_db ok db data = db ++ data := by
  rw [add_pdf_to_db_append_filter, List.filter_eq_self.mpr fun a _ => hok a]

theorem make_table_helper_none (fails : FailSpec) (d : Nat)
    (h : fails.failCreateTable = true ∨ fails.failCreateIndex = true) :
    _make_table_helper fails d = none := by
  unfold _make_table_helper
  by_cases hc : fails.failCreateTable
  · simp [hc]
  · rcases h with h | h
    · exact absurd h hc
    · simp [hc, h]

theorem mkRows_rowid (id_ : String) :
    ∀ (ps : List (String × List ℚ)) (i : Nat), ∀ r ∈ mkRows id_ i ps, r.rowid = id_ := by
  intro ps
  induction ps with
  | nil => intro i r hr; simp [mkRows] at hr
  | cons p rest ih =>
      intro i r hr
      obtain ⟨t, e⟩ := p
      simp only [mkRows, List.mem_cons] at hr
      rcases hr with hr | hr
      · simp [hr]
      · exact ih (i + 1) r hr

theorem mkRows_sect_ge (id_ : String) :
    ∀ (ps : List (String × List ℚ)) (i : Nat), ∀ r ∈ mkRows id_ i ps, i ≤ r.sect := by
  intro ps
  induction ps with
  | nil => intro i r hr; simp [mkRows] at hr
  | cons p rest ih =>
      intro i r hr
      obtain ⟨t, e⟩ := p
      simp only [mkRows, List.mem_cons] at hr
      rcases hr with hr | hr
      · simp [hr]
      · exact le_trans (Nat.le_succ i) (ih (i + 1) r hr)

theorem mkRows_length (id_ : String) :
    ∀ (ps : List (String × List ℚ)) (i : Nat), (mkRows id_ i ps).length = ps.length := by
  intro ps
  induction ps with
  | nil => intro i; simp [mkRows]
  | cons p rest ih => obtain ⟨t, e⟩ := p; intro i; simp [mkRows, ih]

theorem mkRows_map_sect (id_ : String) :
    ∀ (ps : List (String × List ℚ)) (i : Nat),
      (mkRows id_ i ps).map (fun r => r.sect) = List.range' i ps.length := by
  intro ps
  induction ps with
  | nil => intro i; simp [mkRows]
  | cons p rest ih =>
      obtain ⟨t, e⟩ := p
      intro i
      simp [mkRows, ih, List.range'_succ]

theorem mkRows_map_text (id_ : String) :
    ∀ (ps : List (String × List ℚ)) (i : Nat),
      (mkRows id_ i ps).map (fun r => r.text) = ps.map Prod.fst := by
  intro ps
  induction ps with
  | nil => intro i; simp [mkRows]
  | cons p rest ih =>
      obtain ⟨t, e⟩ := p
      intro i
      simp [mkRows, ih]

theorem rowsFor_mkRows_self (id_ : String) (ps : List (String × List ℚ))
    (i : Nat) : rowsFor (mkRows id_ i ps) id_ = mkRows id_ i ps := by
  unfold rowsFor
  exact List.filter_eq_self.mpr fun r hr => by
    simp [mkRows_rowid id_ ps i r hr]

theorem rowsFor_mkRows_ne (id_ j : String) (h : j ≠ id_)
    (ps : List (String × List ℚ)) (i : Nat) :
    rowsFor (mkRows id_ i ps) j = [] := by
  unfold rowsFor
  exact List.filter_eq_nil_iff.mpr fun r hr => by
    simp [mkRows_rowid id_ ps i r hr, Ne.symm h]

theorem rowsFor_append (a b : List DbRow) (i : String) :
    rowsFor (a ++ b) i = rowsFor a i ++ rowsFor b i := by
  simp [rowsFor]

theorem existsQuery_false_rowsFor (db : List DbRow) (i : String)
    (h : existsQuery db i = false) : rowsFor db i = [] := by
  unfold existsQuery at h
  unfold rowsFor
  refine List.filter_eq_nil_iff.mpr fun r hr hmem => ?_
  have hany : db.any (fun r => r.rowid == i) = true :=
    List.any_eq_true.mpr ⟨r, hr, hmem⟩
  rw [h] at hany
  exact Bool.false_ne_true hany

/-! ## Claim C1 — transactional batch insert -/

/-- C1, counterexample.  The claim states that if inserting any row of a
batch of a document fails, the whole batch is rolled back and no rows for
that document are written.  In `add_pdf_to_db` each row is inserted and
committed separately: starting from an empty table with the two-row batch
`[c1Row0, c1Row1]` where the INSERT of `c1Row1` raises, the section-0 row
`c1Row0` is nevertheless committed and remains in the table, so a partial
write exists. -/
theorem c1_single_transaction_counterexample :
    add_pdf_to_db c1SecondFails [] [c1Row0, c1Row1] = [c1Row0] ∧
    c1SecondFails c1Row1 = false ∧
    ([c1Row0] : List DbRow) ≠ [] :=
  ⟨rfl, rfl, by decide⟩

/-- C1, amended.  `add_pdf_to_db` inserts and commits each chunk row in
its own transaction; a row failure rolls back and skips only that row
(it is logged, not retried), so the final table is the initial table
extended with exactly the rows whose INSERT succeeded — on total success
every row is inserted, but a row failure does not remove the other rows
of the batch and partial writes are possible. -/
theorem c1_per_row_transaction (ok : DbRow → Bool) (db data : List DbRow) :
    add_pdf_to_db ok db data = db ++ data.filter ok :=
  add_pdf_to_db_append_filter ok data db

/-! ## Claim C10 — fail-open duplicate check -/

/-- C10.  `get_entry_from_db` fails open: when the existence query raises,
the handler returns `False` instead of propagating, and `emb_and_store`
with an erroring duplicate check therefore proceeds exactly as on a
missing document — it chunks, embeds and inserts regardless of the table
contents. -/
theorem c10_duplicate_check_fails_open (hashF textF : List Nat → String)
    (splitF : String → List String) (emb : List String → List (List ℚ))
    (ok : DbRow → Bool) (db : List DbRow) (pdf : List Nat) :
    get_entry_from_db (.error ()) = false ∧
    emb_and_store hashF textF splitF emb ok true db pdf =
      (match _get_data_for_db splitF emb (hashF pdf) (textF pdf) with
       | none => db
       | some data => add_pdf_to_db ok db data) :=
  ⟨rfl, rfl⟩

/-! ## Claim C5 — cache-key derivation -/

/-- C5.  The spec requires the cache key to be a hash of the canonicalized
`(question, filters)` pair.  In the source, `cache_key_answer_question`
declares the single parameter `input` and hashes only the question, while
the route calls it with the two positional arguments
`(question_text, filters)`; under Python argument binding that call raises
`TypeError` for every question and filter dictionary, so the filters are
never part of any derived key. -/
theorem c5_cache_key_call_type_error (sha256hex : String → String)
    (q : String) (f : Filters) :
    routes_cache_key_call sha256hex q f = .error () := rfl

/-! ## Claim C9 — degraded-mode orchestration -/

/-- C9.  In degraded mode the `/answer_question` route does skip the cache
lookup and store and calls the task-layer `answer_question` directly, but
it unpacks the single returned string into
`answer, db_query_time, invoke_time`.  Concretely: over an empty corpus
the task layer returns the valid answer string
"There are not facts available that are related to q", yet the degraded
route raises `ValueError` (the 42-character string does not unpack into
three variables) instead of returning that answer, so the request fails
even though the infrastructure outage was survivable. -/
theorem c9_degraded_answer_lost :
    task_answer_question c9dist c9embQ c9llm "q" 0 2 ⟨none⟩ [] =
      .ok "There are not facts available that are related to q" ∧
    routes_answer_question_degraded c9dist c9embQ c9llm "q" 0 2 ⟨none⟩ [] =
      .error () := by
  constructor
  · rfl
  · rfl

/-! ## Claim C6 — dimension-mismatch migration -/

/-- C6.  When the table exists and its stored vector dimensionality
differs from the dimensionality implied by the active embedding model,
`create_table` (with no step failing) drops the table and fully recreates
it with its indexes: afterwards the schema-ensure succeeds and the table
is the fresh one — new dimensionality, zero pre-existing rows, full
expected column set, both indexes present. -/
theorem c6_dimension_mismatch_migration (expectedDim : Nat) (st : PgState)
    (t : TableState) (h1 : st.table = some t) (h2 : t.dim ≠ expectedDim) :
    (create_table noFail expectedDim st).1 = .ok () ∧
    (create_table noFail expectedDim st).2.table = some (freshTable expectedDim) ∧
    (freshTable expectedDim).dim = expectedDim ∧
    (freshTable expectedDim).rows = [] := by
  unfold create_table _make_table_helper noFail
  simp [h1, h2, freshTable]

/-- C6, witness: a table stored at dimensionality 512 migrated to 1024. -/
theorem c6_witness :
    (create_table noFail 1024 c6St).1 = .ok () ∧
    (create_table noFail 1024 c6St).2.table = some (freshTable 1024) ∧
    (freshTable 1024).dim = 1024 ∧
    (freshTable 1024).rows = [] :=
  c6_dimension_mismatch_migration 1024 c6St c6Table rfl (by decide)

/-! ## Claim C7 — migration atomicity -/

/-- C7, counterexample.  The claim states that a failing migration step
rolls the whole migration back as one transaction, leaving no
partial-schema state — in particular no state where the old table was
dropped but the new one not created.  Starting from the mismatched table
of `c7St` where the CREATE TABLE of the rebuild raises (`c7Fails`), the failure
is surfaced, but the final state is not the initial one: the old table is
gone (`_drop_embedding_table` committed the drop on its own before the
rebuild) and no new table exists. -/
theorem c7_rollback_counterexample :
    (create_table c7Fails 1024 c7St).1 = .error () ∧
    (create_table c7Fails 1024 c7St).2 ≠ c7St ∧
    (create_table c7Fails 1024 c7St).2.table = none ∧
    c7St.table ≠ none := by
  refine ⟨rfl, by decide, rfl, by decide⟩

/-- C7, amended.  A failing step of the schema-ensure migration is
surfaced to the caller as fatal and the pending (uncommitted) work of the
migration connection is rolled back; but the migration is not one
transaction: in the dimension-mismatch path the table drop is committed by
itself before the rebuild, so when the CREATE TABLE or CREATE
INDEX of the rebuild fails the process is left in the partial-schema state where the old
table has been dropped and no table exists. -/
theorem c7_drop_committed_before_rebuild (expectedDim : Nat) (st : PgState)
    (t : TableState) (fails : FailSpec)
    (h1 : st.table = some t) (h2 : t.dim ≠ expectedDim)
    (h3 : fails.failPgvector = false)
    (h4 : fails.failCreateTable = true ∨ fails.failCreateIndex = true) :
    (create_table fails expectedDim st).1 = .error () ∧
    (create_table fails expectedDim st).2 = ⟨true, none⟩ := by
  unfold create_table
  simp [h1, h2, h3, make_table_helper_none fails expectedDim h4]

/-- C7, witness for the amended statement: the concrete mismatched state
and failing rebuild of the counterexample. -/
theorem c7_amended_witness :
    (create_table c7Fails 1024 c7St).1 = .error () ∧
    (create_table c7Fails 1024 c7St).2 = ⟨true, none⟩ :=
  c7_drop_committed_before_rebuild 1024 c7St
    ⟨512, [⟨"doc", "t", [0], 0⟩], expectedColumns, true, true⟩ c7Fails
    rfl (by decide) rfl (Or.inl rfl)

/-! ## Claim C3 — index-parameter tuning formula -/

theorem index_m_eq_min (n d : Nat) :
    index_m n d = min 64 (index_temp_m n d) := by
  unfold index_m
  split
  · exact (min_eq_left (le_of_lt (by assumption))).symm
  · exact (min_eq_right (not_lt.mp (by assumption))).symm

theorem log_five_million_gt_eleven : (11 : ℝ) < Real.log 5000000 := by
  rw [Real.lt_log_iff_exp_lt (by norm_num)]
  have h2 : Real.exp 11 = Real.exp 1 ^ (11 : ℕ) := by
    rw [← Real.exp_nat_mul]
    norm_num
  calc Real.exp 11 = Real.exp 1 ^ (11 : ℕ) := h2
    _ < 2.7182818286 ^ (11 : ℕ) :=
        pow_lt_pow_left₀ Real.exp_one_lt_d9 (le_of_lt (Real.exp_pos 1)) (by norm_num)
    _ < 5000000 := by norm_num

/-- C3.  The index-parameter computation is the stated pure function of
`(expectedCorpusSize, vectorDim)`: the cap branch of the source computes
exactly `m = min(64, 2 * (dimensionality - 1))` with
`dimensionality = ln(n) * (1 + d / 500)` (definitionally, see
`index_dimensionality` and `index_temp_m`) and
`efConstruction = ceil(((2 * m) + d / 10) / 100) * 100`
(see `index_ef_construction`); `m` never exceeds 64; and at the constants
the source uses — `EXPECTED_SIZE_OF_DB = 5_000_000` and vector
dimensionality 1024 — it yields `m = 64` and `efConstruction = 300`. -/
theorem c3_index_params :
    (∀ n d : Nat, index_m n d = min 64 (index_temp_m n d)) ∧
    (∀ n d : Nat, index_m n d ≤ 64) ∧
    _get_vector_index_params EXPECTED_SIZE_OF_DB VECTOR_DIMENSION = (64, 300) := by
  have hL := log_five_million_gt_eleven
  have hN : (EXPECTED_SIZE_OF_DB : ℝ) = 5000000 := by
    norm_num [EXPECTED_SIZE_OF_DB]
  have htemp : index_temp_m EXPECTED_SIZE_OF_DB VECTOR_DIMENSION > 64 := by
    unfold index_temp_m index_dimensionality
    rw [hN]
    have hd : ((VECTOR_DIMENSION : Nat) : ℝ) = 1024 := by
      norm_num [VECTOR_DIMENSION]
    rw [hd]
    nlinarith [hL]
  have hm : index_m EXPECTED_SIZE_OF_DB VECTOR_DIMENSION = 64 := by
    unfold index_m
    rw [if_pos htemp]
  have hef : index_ef_construction EXPECTED_SIZE_OF_DB VECTOR_DIMENSION = 300 := by
    unfold index_ef_construction
    rw [hm]
    have hd : ((VECTOR_DIMENSION : Nat) : ℝ) = 1024 := by
      norm_num [VECTOR_DIMENSION]
    rw [hd]
    have harg : ((2 * (64 : ℝ)) + (1024 : ℝ) / 10) / 100 = 288 / 125 := by
      norm_num
    rw [harg]
    have hceil : ⌈(288 / 125 : ℝ)⌉ = 3 := by
      rw [Int.ceil_eq_iff]
      constructor <;> norm_num
    rw [hceil]
    norm_num
  refine ⟨index_m_eq_min, fun n d => ?_, ?_⟩
  · rw [index_m_eq_min]
    exact min_le_left _ _
  · unfold _get_vector_index_params
    rw [hm, hef]

/-! ## Claim C2 — staged retrieval correctness -/

/-- C2.  Whenever `get_similarity` returns a result list, stage 1 produced
a qualifying id set (the section-0 rows passing the score threshold and
filters, ordered by ascending distance, capped at `n`), and every returned
row has a positive section, a document id belonging to that stage-1 set,
and a score at least the similarity limit; the returned list is ordered by
ascending cosine distance and contains at most `n` rows. -/
theorem c2_staged_retrieval (dist : List ℚ → List ℚ → ℚ) (q : List ℚ)
    (limit : ℚ) (n : Nat) (f : Filters) (table res : List DbRow)
    (h : get_similarity dist q limit n f table = .ok res) :
    ∃ ids : List String,
      queryHigh dist q limit n f table = .ok ids ∧
      (∀ r ∈ res, 0 < r.sect ∧ r.rowid ∈ ids ∧
        limit ≤ scoreOf dist q r.embedding) ∧
      List.Chain' (fun a b => dist q a.embedding ≤ dist q b.embedding) res ∧
      res.length ≤ n := by
  unfold get_similarity at h
  cases hq : queryHigh dist q limit n f table with
  | error e => rw [hq] at h; exact absurd h (by simp)
  | ok ids =>
      rw [hq] at h
      have hres : res = queryLow dist q ids limit n table := by
        have := h
        simp only [Except.ok.injEq] at this
        exact this.symm
      subst hres
      refine ⟨ids, rfl, ?_, ?_, ?_⟩
      · intro r hr
        have hr1 : r ∈ sortByDistance dist q
            (table.filter (passLow dist q limit ids)) :=
          List.mem_of_mem_take hr
        have hr2 : r ∈ table.filter (passLow dist q limit ids) := by
          unfold sortByDistance at hr1
          exact (List.mem_insertionSort _).mp hr1
        have hp : passLow dist q limit ids r = true := List.of_mem_filter hr2
        unfold passLow at hp
        simp only [Bool.and_eq_true, decide_eq_true_eq] at hp
        exact ⟨hp.1.1, hp.1.2, hp.2⟩
      · haveI : IsTotal DbRow (fun a b => dist q a.embedding ≤ dist q b.embedding) :=
          ⟨fun a b => le_total _ _⟩
        haveI : IsTrans DbRow (fun a b => dist q a.embedding ≤ dist q b.embedding) :=
          ⟨fun a b c hab hbc => le_trans hab hbc⟩
        have hs : List.Sorted (fun a b => dist q a.embedding ≤ dist q b.embedding)
            (sortByDistance dist q (table.filter (passLow dist q limit ids))) := by
          unfold sortByDistance
          exact List.sorted_insertionSort _ _
        exact ((hs.sublist (List.take_sublist n _)).chain' : _)
      · unfold queryLow
        exact List.length_take_le n _

/-- C2, witness: a two-row corpus (one section-0 row, one chunk row of the
same document), trivial distance, limit 0, cap 2, no filters; the result
is the single chunk row. -/
theorem c2_witness :
    ∃ ids : List String,
      queryHigh c2Dist [] 0 2 ⟨none⟩ c2Table = .ok ids ∧
      (∀ r ∈ [c2Row1], 0 < r.sect ∧ r.rowid ∈ ids ∧
        (0 : ℚ) ≤ scoreOf c2Dist [] r.embedding) ∧
      List.Chain' (fun a b => c2Dist [] a.embedding ≤ c2Dist [] b.embedding)
        [c2Row1] ∧
      ([c2Row1] : List DbRow).length ≤ 2 :=
  c2_staged_retrieval c2Dist [] 0 2 ⟨none⟩ c2Table [c2Row1] (by
    norm_num [get_similarity, queryHigh, queryLow, sortByDistance, passHigh,
      passLow, scoreOf, c2Dist, c2Table, c2Row0, c2Row1, List.filter_cons,
      List.insertionSort, List.orderedInsert])

/-! ## Claim C4 — ingestion idempotence -/

theorem emb_and_store_found (hashF textF : List Nat → String)
    (splitF : String → List String) (emb : List String → List (List ℚ))
    (ok : DbRow → Bool) (db : List DbRow) (pdf : List Nat)
    (hex : existsQuery db (hashF pdf) = true) :
    emb_and_store hashF textF splitF emb ok false db pdf = db := by
  unfold emb_and_store get_entry_from_db
  simp [hex]

theorem emb_and_store_emb_nil (hashF textF : List Nat → String)
    (splitF : String → List String) (emb : List String → List (List ℚ))
    (ok : DbRow → Bool) (db : List DbRow) (pdf : List Nat)
    (hnil : emb (textF pdf :: splitF (textF pdf)) = []) :
    emb_and_store hashF textF splitF emb ok false db pdf = db := by
  unfold emb_and_store get_entry_from_db _get_data_for_db
  simp only [hnil, List.zip_nil_right, List.length_nil]
  split
  · rfl
  · simp [mkRows, add_pdf_to_db]

theorem emb_and_store_fresh (hashF textF : List Nat → String)
    (splitF : String → List String) (emb : List String → List (List ℚ))
    (ok : DbRow → Bool) (db : List DbRow) (pdf : List Nat)
    (hex : existsQuery db (hashF pdf) = false)
    (hlen : (emb (textF pdf :: splitF (textF pdf))).length
      = (textF pdf :: splitF (textF pdf)).length)
    (hok : ∀ c, ok c = true) :
    emb_and_store hashF textF splitF emb ok false db pdf =
      db ++ docRowsSpec splitF emb (hashF pdf) (textF pdf) := by
  unfold emb_and_store get_entry_from_db _get_data_for_db docRowsSpec
  simp [hex, hlen, add_pdf_to_db_all_ok ok hok]

theorem docRowsSpec_cons (splitF : String → List String)
    (emb : List String → List (List ℚ)) (i t : String)
    (hlen : (emb (t :: splitF t)).length = (t :: splitF t).length) :
    ∃ e es, emb (t :: splitF t) = e :: es ∧
      docRowsSpec splitF emb i t =
        ⟨i, t, e, 0⟩ :: mkRows i 1 ((splitF t).zip es) := by
  cases hm : emb (t :: splitF t) with
  | nil => rw [hm] at hlen; simp at hlen
  | cons e es =>
      exact ⟨e, es, rfl, by simp [docRowsSpec, hm, mkRows]⟩

/-- C4.  Ingestion is idempotent on document content (under a normally
behaving embedder — one vector per input or total failure — and
successful INSERTs): ingesting the same raw bytes twice leaves exactly the
state of the first ingestion, and whenever the derived document id is
already present the call detects it before any write and returns without
inserting anything. -/
theorem c4_ingestion_idempotent (hashF textF : List Nat → String)
    (splitF : String → List String) (emb : List String → List (List ℚ))
    (ok : DbRow → Bool) (db : List DbRow) (pdf : List Nat)
    (hemb : ∀ ts, (emb ts).length = ts.length ∨ emb ts = [])
    (hok : ∀ c, ok c = true) :
    emb_and_store hashF textF splitF emb ok false
        (emb_and_store hashF textF splitF emb ok false db pdf) pdf
      = emb_and_store hashF textF splitF emb ok false db pdf ∧
    (existsQuery db (hashF pdf) = true →
      emb_and_store hashF textF splitF emb ok false db pdf = db) := by
  refine ⟨?_, emb_and_store_found hashF textF splitF emb ok db pdf⟩
  by_cases hex : existsQuery db (hashF pdf) = true
  · rw [emb_and_store_found hashF textF splitF emb ok db pdf hex]
    exact emb_and_store_found hashF textF splitF emb ok db pdf hex
  · have hexf : existsQuery db (hashF pdf) = false := by
      simpa using hex
    rcases hemb (textF pdf :: splitF (textF pdf)) with hlen | hnil
    · rw [emb_and_store_fresh hashF textF splitF emb ok db pdf hexf hlen hok]
      obtain ⟨e, es, -, hspec⟩ :=
        docRowsSpec_cons splitF emb (hashF pdf) (textF pdf) hlen
      have hex2 : existsQuery
          (db ++ docRowsSpec splitF emb (hashF pdf) (textF pdf))
          (hashF pdf) = true := by
        rw [hspec]
        simp [existsQuery]
      exact emb_and_store_found hashF textF splitF emb ok _ pdf hex2
    · rw [emb_and_store_emb_nil hashF textF splitF emb ok db pdf hnil]
      exact emb_and_store_emb_nil hashF textF splitF emb ok db pdf hnil

/-- C4, witness: concrete collaborators, empty initial table; the second
ingestion of the same bytes is a no-op on the state left by the first. -/
theorem c4_witness :
    emb_and_store c4hash c4text c4split c4emb c4ok false
        (emb_and_store c4hash c4text c4split c4emb c4ok false [] [0]) [0]
      = emb_and_store c4hash c4text c4split c4emb c4ok false [] [0] ∧
    (existsQuery [] (c4hash [0]) = true →
      emb_and_store c4hash c4text c4split c4emb c4ok false [] [0] = []) :=
  c4_ingestion_idempotent c4hash c4text c4split c4emb c4ok [] [0]
    (fun ts => Or.inl (by simp [c4emb])) (fun c => rfl)

/-! ## Claim C8 — chunk-set invariant -/

/-- The invariant claimed for every document id present in the store:
there is a raw text `t` such that exactly one row has section 0 and its
text is `t` (the full document text), the rows with section at least 1
carry the overlapping sub-chunks of `t` produced by the splitter in their original
order, the sections are numbered consecutively from 0 in table order, and
every row of the document carries the same document id. -/
def chunkDocOk (splitF : String → List String) (db : List DbRow)
    (id_ : String) : Prop :=
  ∃ t : String,
    ((rowsFor db id_).filter (fun r => r.sect == 0)).map (fun r => r.text)
      = [t] ∧
    ((rowsFor db id_).filter (fun r => decide (1 ≤ r.sect))).map
      (fun r => r.text) = splitF t ∧
    (rowsFor db id_).map (fun r => r.sect)
      = List.range (rowsFor db id_).length ∧
    ∀ r ∈ rowsFor db id_, r.rowid = id_

theorem chunkDocOk_of_spec (splitF : String → List String)
    (emb : List String → List (List ℚ)) (id_ t : String) (db : List DbRow)
    (hlen : (emb (t :: splitF t)).length = (t :: splitF t).length)
    (hrows : rowsFor db id_ = docRowsSpec splitF emb id_ t) :
    chunkDocOk splitF db id_ := by
  obtain ⟨e, es, hm, hspec⟩ := docRowsSpec_cons splitF emb id_ t hlen
  have hes : es.length = (splitF t).length := by
    rw [hm] at hlen
    simpa using hlen
  refine ⟨t, ?_, ?_, ?_, ?_⟩
  · rw [hrows, hspec]
    have htail : (mkRows id_ 1 ((splitF t).zip es)).filter
        (fun r => r.sect == 0) = [] := by
      refine List.filter_eq_nil_iff.mpr fun r hr hcon => ?_
      have h1 := mkRows_sect_ge id_ ((splitF t).zip es) 1 r hr
      simp only [beq_iff_eq] at hcon
      omega
    simp [List.filter_cons, htail]
  · rw [hrows, hspec]
    have htail : (mkRows id_ 1 ((splitF t).zip es)).filter
        (fun r => decide (1 ≤ r.sect)) = mkRows id_ 1 ((splitF t).zip es) :=
      List.filter_eq_self.mpr fun r hr => by
        simpa using mkRows_sect_ge id_ ((splitF t).zip es) 1 r hr
    simp only [List.filter_cons]
    norm_num
    rw [htail, mkRows_map_text]
    exact List.map_fst_zip _ _ (by omega)
  · rw [hrows]
    unfold docRowsSpec
    rw [mkRows_map_sect, mkRows_length, List.range_eq_range']
  · rw [hrows]
    unfold docRowsSpec
    exact mkRows_rowid _ _ _

theorem rowsFor_del_self (db : List DbRow) (i : String) :
    rowsFor (db.filter (fun r => !(r.rowid == i))) i = [] := by
  unfold rowsFor
  rw [List.filter_filter]
  refine List.filter_eq_nil_iff.mpr fun r _ hcon => ?_
  simp at hcon

theorem rowsFor_del_ne (db : List DbRow) (i j : String) (h : j ≠ i) :
    rowsFor (db.filter (fun r => !(r.rowid == i))) j = rowsFor db j := by
  unfold rowsFor
  rw [List.filter_filter]
  refine List.filter_congr fun r _ => ?_
  by_cases hj : r.rowid = j
  · simp [hj]
    exact h
  · simp [hj]

theorem storeInv_nil (splitF : String → List String)
    (emb : List String → List (List ℚ)) : storeInv splitF emb [] :=
  fun _ => Or.inl rfl

theorem storeInv_ingest (hashF textF : List Nat → String)
    (splitF : String → List String) (emb : List String → List (List ℚ))
    (ok : DbRow → Bool) (db : List DbRow) (pdf : List Nat)
    (hemb : ∀ ts, (emb ts).length = ts.length ∨ emb ts = [])
    (hok : ∀ c, ok c = true) (hinv : storeInv splitF emb db) :
    storeInv splitF emb (emb_and_store hashF textF splitF emb ok false db pdf) := by
  by_cases hex : existsQuery db (hashF pdf) = true
  · rw [emb_and_store_found hashF textF splitF emb ok db pdf hex]
    exact hinv
  · have hexf : existsQuery db (hashF pdf) = false := by simpa using hex
    rcases hemb (textF pdf :: splitF (textF pdf)) with hlen | hnil
    · rw [emb_and_store_fresh hashF textF splitF emb ok db pdf hexf hlen hok]
      intro j
      rw [rowsFor_append]
      by_cases hj : j = hashF pdf
      · subst hj
        rw [existsQuery_false_rowsFor db _ hexf]
        right
        refine ⟨textF pdf, hlen, ?_⟩
        simp only [List.nil_append]
        unfold docRowsSpec
        exact rowsFor_mkRows_self _ _ _
      · have hzero : rowsFor (docRowsSpec splitF emb (hashF pdf) (textF pdf)) j = [] := by
          unfold docRowsSpec
          exact rowsFor_mkRows_ne _ j hj _ _
        rw [hzero, List.append_nil]
        exact hinv j
    · rw [emb_and_store_emb_nil hashF textF splitF emb ok db pdf hnil]
      exact hinv

theorem storeInv_delete (splitF : String → List String)
    (emb : List String → List (List ℚ)) (db : List DbRow) (i : String)
    (hinv : storeInv splitF emb db) :
    storeInv splitF emb (delete_pdf_id db i) := by
  unfold delete_pdf_id
  split
  · exact hinv
  · intro j
    by_cases hj : j = i
    · subst hj
      exact Or.inl (rowsFor_del_self db j)
    · rw [rowsFor_del_ne db i j hj]
      exact hinv j

theorem storeInv_runOps (hashF textF : List Nat → String)
    (splitF : String → List String) (emb : List String → List (List ℚ))
    (ok : DbRow → Bool)
    (hemb : ∀ ts, (emb ts).length = ts.length ∨ emb ts = [])
    (hok : ∀ c, ok c = true) (ops : List StoreOp) :
    ∀ db : List DbRow, storeInv splitF emb db →
      storeInv splitF emb (runOps hashF textF splitF emb ok ops db) := by
  induction ops with
  | nil => intro db h; exact h
  | cons op rest ih =>
      intro db h
      cases op with
      | ingest pdf =>
          exact ih _ (storeInv_ingest hashF textF splitF emb ok db pdf hemb hok h)
      | delete i =>
          exact ih _ (storeInv_delete splitF emb db i h)

/-- C8.  Under a normally behaving embedder (one vector per input or
total failure) and successful INSERTs, after any sequence of ingest and
delete operations starting from the empty store, every document id with
rows in the store satisfies the chunk-set invariant: section 0 exists
exactly once and carries the full document text, the rows with section at
least 1 are the overlapping sub-chunks from the splitter in original order with
consecutive section numbers, and all rows share the document id. -/
theorem c8_chunk_set_invariant (hashF textF : List Nat → String)
    (splitF : String → List String) (emb : List String → List (List ℚ))
    (ok : DbRow → Bool)
    (hemb : ∀ ts, (emb ts).length = ts.length ∨ emb ts = [])
    (hok : ∀ c, ok c = true) (ops : List StoreOp) (id_ : String)
    (hne : rowsFor (runOps hashF textF splitF emb ok ops []) id_ ≠ []) :
    chunkDocOk splitF (runOps hashF textF splitF emb ok ops []) id_ := by
  have hinv := storeInv_runOps hashF textF splitF emb ok hemb hok ops []
    (storeInv_nil splitF emb)
  rcases hinv id_ with h | ⟨t, hlen, hrows⟩
  · exact absurd h hne
  · exact chunkDocOk_of_spec splitF emb id_ t _ hlen hrows

/-- C8, witness: one concrete ingestion into the empty store; the
document "h" then satisfies the chunk-set invariant. -/
theorem c8_witness :
    chunkDocOk c4split
      (runOps c4hash c4text c4split c4emb c4ok [StoreOp.ingest [0]] []) "h" :=
  c8_chunk_set_invariant c4hash c4text c4split c4emb c4ok
    (fun ts => Or.inl (by simp [c4emb])) (fun c => rfl)
    [StoreOp.ingest [0]] "h" (by decide)
